import Mathlib

/-!
Verification development for the ephemeral audio-sharing service.

The repository serves uploaded audio blobs under random tokens, with
range-aware streaming, existence checks, best-effort deletion and a
TTL-based expiry sweeper.  The authoritative implementation embedded
here is the in-memory Node server (the `audioStore` global together
with `handleUpload`, `handleCheck`, `handleDelete`, `handleStream`,
`cleanExpiredAudio` and the constants `MAX_AUDIO_BYTES`,
`AUDIO_TTL_MS`).  The Cloudflare Pages variant is embedded separately
where its behaviour is claim-relevant: the R2 upload handler
(`onRequestPost` in the upload function, embedded as
`onRequestPostUpload`), the R2 check handler (embedded as
`onRequestGetCheck`) and the R2 delete handler (`onRequest` in the
delete function, embedded as `onRequestDelete`).

Modelling conventions:
* Byte payloads are `List Nat` (each element the value of one byte);
  `Buffer.concat`/`request.arrayBuffer()` results are the full list of
  received bytes, and `buffer.length` is `List.length`.
* JavaScript header maps are passed as `Option String` per header
  (`none` models an absent header, which `req.headers[...]` /
  `headers.get(...)` surface as `undefined` / `null`).
* JavaScript truthiness of strings (`a || b`) is modelled by `jsOr` /
  `jsOrOpt`: the empty string is falsy, everything else truthy.
* The store global `audioStore` is a function `String → Option AudioEntry`;
  `audioStore[token] = e` is a pointwise update, `delete audioStore[token]`
  maps the key to `none`.  Handlers are state passing: each returns its
  HTTP response together with the store left behind, which for the
  read-only handlers (`handleCheck`, `handleStream`) is the input store,
  since their bodies contain no assignment to the global.
* Timestamps (`Date.now()`) are `Int` milliseconds, passed in as `now`.
* JS numbers arising in the range parser are modelled as `Nat`.  All of
  them are values of `parseInt` on non-empty decimal digit strings (never
  `NaN`, and exact for every value that can pass the `< total` bounds
  check), except `end = total - 1` when the second capture is empty.
  There `total - 1` could be `-1` in JS (when `total = 0`), while the
  `Nat` model gives `0`; both are observationally equal because the
  guard `start >= total` already rejects every request when `total = 0`.
-/

/-- One JSON scalar value, enough for every body the service emits. -/
inductive JVal where
  | str (s : String)
  | int (n : Int)
  | bool (b : Bool)
deriving DecidableEq

/-- A JSON object body: every response body in the service is a flat object. -/
abbrev Json := List (String × JVal)

/-- One record of the in-memory `audioStore`:
`{ buffer, mimeType, filename, createdAt, deleted }`. -/
structure AudioEntry where
  buffer : List Nat
  mimeType : String
  filename : String
  createdAt : Int
  deleted : Bool
deriving DecidableEq

/-- The `audioStore` global: token to entry, `none` when the key is absent. -/
abbrev Store := String → Option AudioEntry

/-- A store with no entries. -/
def emptyStore : Store := fun _ => none

/-- `MAX_AUDIO_BYTES`: max in-memory size per upload (25 MB). -/
def MAX_AUDIO_BYTES : Nat := 25 * 1024 * 1024

/-- `AUDIO_TTL_MS`: lifetime for audio in memory (1 hour, in ms). -/
def AUDIO_TTL_MS : Int := 60 * 60 * 1000

/-- JavaScript `a || b` on strings: `a` when truthy (non-empty), else `b`. -/
def jsOr (a b : String) : String :=
  if a = "" then b else a

/-- JavaScript `h || b` where `h` is a possibly-absent header value. -/
def jsOrOpt (h : Option String) (b : String) : String :=
  match h with
  | none => b
  | some s => jsOr s b

/-- `getAudioEntry`: look a token up in the store, hiding entries whose
`deleted` flag is set. -/
def getAudioEntry (store : Store) (token : String) : Option AudioEntry :=
  match store token with
  | none => none
  | some e => if e.deleted then none else some e

/-- `cleanExpiredAudio`: the expiry sweeper.  Removes flagged entries and
every entry with `now - entry.createdAt > AUDIO_TTL_MS`. -/
def cleanExpiredAudio (now : Int) (store : Store) : Store :=
  fun token =>
    match store token with
    | none => none
    | some e =>
        if e.deleted then none
        else if AUDIO_TTL_MS < now - e.createdAt then none
        else some e

/-! ### The range regex `/bytes=(\d+)-(\d*)/`

`RegExp.exec` returns the leftmost match of the unanchored pattern, or
`null`.  A match at a position requires the literal `bytes=`, then a
maximal non-empty run of decimal digits (capture 1), then a literal `-`,
then a maximal (possibly empty) run of decimal digits (capture 2).
Backtracking never shortens the `\d+` run: a shorter run would have to be
followed by `-`, but every character it gives back is a digit. -/

/-- Strip an expected literal off the front of the character list. -/
def dropLit : List Char → List Char → Option (List Char)
  | [], cs => some cs
  | _ :: _, [] => none
  | p :: ps, c :: cs => if c = p then dropLit ps cs else none

/-- Try to match `bytes=(\d+)-(\d*)` at the head of the list, returning
the two captures. -/
def matchBytesAt (cs : List Char) : Option (List Char × List Char) :=
  match dropLit "bytes=".data cs with
  | none => none
  | some rest =>
      let d1 := rest.takeWhile Char.isDigit
      let rest1 := rest.dropWhile Char.isDigit
      if d1 = [] then none
      else
        match rest1 with
        | '-' :: rest2 => some (d1, rest2.takeWhile Char.isDigit)
        | _ => none

/-- `/bytes=(\d+)-(\d*)/.exec`: leftmost match, scanning positions left
to right. -/
def execBytesRegex : List Char → Option (List Char × List Char)
  | [] => none
  | c :: cs =>
      match matchBytesAt (c :: cs) with
      | some r => some r
      | none => execBytesRegex cs

/-- `parseInt(_, 10)` on a capture that is a decimal digit string
(48 is the code point of the digit zero). -/
def digitsToNat (cs : List Char) : Nat :=
  cs.foldl (fun n d => 10 * n + (d.toNat - 48)) 0

/-- The parsed `(start, end)` pair of the stream handler: `start` from
capture 1, `end` from capture 2 when non-empty (`match[2] ? ... : ...`),
otherwise `total - 1`. -/
def rangeOf (total : Nat) (s : String) : Option (Nat × Nat) :=
  match execBytesRegex s.data with
  | none => none
  | some (m1, m2) =>
      some (digitsToNat m1, if m2 = [] then total - 1 else digitsToNat m2)

/-! ### The stream handler -/

/-- Body of a stream response: plain text for errors, raw bytes otherwise. -/
inductive StreamBody where
  | text (s : String)
  | bytes (b : List Nat)
deriving DecidableEq

/-- An HTTP response of the stream endpoint: status, headers in the order
`writeHead` receives them, and the body. -/
structure StreamResponse where
  status : Nat
  headers : List (String × String)
  body : StreamBody
deriving DecidableEq

/-- The payload bytes carried by a stream response (`[]` for text bodies). -/
def bodyBytes (r : StreamResponse) : List Nat :=
  match r.body with
  | .text _ => []
  | .bytes b => b

/-- The response the stream handler produces for a live entry: the body of
`handleStream` after the `getAudioEntry` guard.  `buffer.slice(start, end + 1)`
is the elements at indices `start, …, end`. -/
def streamEntry (entry : AudioEntry) (rangeHeader : Option String) : StreamResponse :=
  let buffer := entry.buffer
  let total := buffer.length
  match rangeHeader with
  | some range =>
      match rangeOf total range with
      | none => ⟨416, [("Content-Type", "text/plain")], .text "Invalid range"⟩
      | some (start, endv) =>
          if total ≤ start ∨ total ≤ endv ∨ endv < start then
            ⟨416, [("Content-Type", "text/plain")], .text "Invalid range"⟩
          else
            ⟨206,
              [("Content-Range",
                  "bytes " ++ toString start ++ "-" ++ toString endv ++ "/" ++ toString total),
               ("Accept-Ranges", "bytes"),
               ("Content-Length", toString (endv - start + 1)),
               ("Content-Type", entry.mimeType),
               ("Cache-Control", "no-store")],
              .bytes ((buffer.drop start).take (endv + 1 - start))⟩
  | none =>
      ⟨200,
        [("Content-Length", toString total),
         ("Content-Type", entry.mimeType),
         ("Accept-Ranges", "bytes"),
         ("Cache-Control", "no-store")],
        .bytes buffer⟩

/-- `handleStream`: 404 for an absent entry (checked before any range
parsing), otherwise `streamEntry`.  Never writes the store. -/
def handleStream (store : Store) (token : String) (rangeHeader : Option String) :
    StreamResponse × Store :=
  match getAudioEntry store token with
  | none =>
      (⟨404, [("Content-Type", "text/plain; charset=utf-8")],
          .text "This audio is no longer available."⟩, store)
  | some entry => (streamEntry entry rangeHeader, store)

/-! ### Check, delete, upload (in-memory Node variants) -/

/-- `handleCheck`: 404 `{ exists: false, message }` for an absent entry,
otherwise 200 `{ exists: true, filename, createdAt }`.  Never writes the
store. -/
def handleCheck (store : Store) (token : String) : (Nat × Json) × Store :=
  match getAudioEntry store token with
  | none =>
      ((404, [("exists", .bool false),
              ("message", .str "This audio is no longer available.")]), store)
  | some e =>
      ((200, [("exists", .bool true),
              ("filename", .str e.filename),
              ("createdAt", .int e.createdAt)]), store)

/-- `handleDelete`: 405 for other methods; 200 `{ ok: true, message }` and no
store change when the entry is already gone; otherwise 200 `{ ok: true }`
after removing the key.  (The transient `entry.deleted = true` assignment is
immediately followed by `delete audioStore[token]`, so its net effect is the
key removal.) -/
def handleDelete (store : Store) (method token : String) : (Nat × Json) × Store :=
  if method ≠ "DELETE" ∧ method ≠ "POST" then
    ((405, [("error", .str "Method not allowed")]), store)
  else
    match getAudioEntry store token with
    | none =>
        ((200, [("ok", .bool true),
                ("message", .str "Already deleted or expired")]), store)
    | some _ =>
        ((200, [("ok", .bool true)]),
         fun t => if t = token then none else store t)

/-- `handleUpload`: given the concatenated request body and the three
headers (`x-filename`, `x-mime-type`, `content-type`), either reject
(413 when over `MAX_AUDIO_BYTES` — the over-limit request is destroyed
and never stored, 400 when empty) leaving the store untouched, or store
a fresh entry under the generated token and answer 200 `{ token }`. -/
def handleUpload (store : Store) (now : Int) (token : String) (body : List Nat)
    (filenameHdr mimeHdr contentTypeHdr : Option String) : (Nat × Json) × Store :=
  let contentType := jsOrOpt contentTypeHdr ""
  let filenameHeader := jsOrOpt filenameHdr "audio"
  let mimeHeader := jsOrOpt mimeHdr "audio/mpeg"
  if MAX_AUDIO_BYTES < body.length then
    ((413, [("error", .str "Audio file too large")]), store)
  else if body.length = 0 then
    ((400, [("error", .str "No audio data received")]), store)
  else
    ((200, [("token", .str token)]),
     fun t =>
       if t = token then
         some ⟨body, jsOr mimeHeader (jsOr contentType "application/octet-stream"),
               filenameHeader, now, false⟩
       else store t)

/-! ### Cloudflare / R2 variants

The R2 bucket is keyed by `"audio/" ++ token`; each object carries the
payload, the `httpMetadata.contentType` and the `customMetadata`
(`filename`, `createdAt`, the latter a decimal string). -/

/-- One stored R2 object with the metadata the service attaches. -/
structure R2Object where
  body : List Nat
  contentType : String
  filename : String
  createdAt : String
deriving DecidableEq

/-- The R2 bucket contents, keyed by object key. -/
abbrev R2Bucket := String → Option R2Object

/-- An R2 bucket with no objects. -/
def emptyBucket : R2Bucket := fun _ => none

/-- `maxBytes`: the 25 MB safeguard of the R2 upload handler. -/
def maxBytes : Nat := 25 * 1024 * 1024

/-! `decodeURIComponent`, as specified by ECMA-262: every `%` must begin a
`%HH` escape; escape bytes are decoded as UTF-8, where a lead byte fixes
the sequence length, continuation bytes must be `10xxxxxx` (each itself
`%`-escaped), and the resulting code point must not be overlong, a
surrogate, or above `0x10FFFF`.  Any violation throws `URIError`,
modelled as `none`.  Recursion is driven by a character-count fuel that
never runs out because every step consumes at least one character. -/

/-- The numeric value of a hexadecimal digit, `none` otherwise (the code
point ranges are 48–57 for `0`–`9`, 65–70 for `A`–`F`, 97–102 for
`a`–`f`). -/
def hexVal (c : Char) : Option Nat :=
  let n := c.toNat
  if 48 ≤ n ∧ n ≤ 57 then some (n - 48)
  else if 65 ≤ n ∧ n ≤ 70 then some (n - 55)
  else if 97 ≤ n ∧ n ≤ 102 then some (n - 87)
  else none

/-- Read one `%HH` escape, returning its byte and the rest of the input. -/
def readEscByte : List Char → Option (Nat × List Char)
  | '%' :: h1 :: h2 :: rest =>
      match hexVal h1, hexVal h2 with
      | some a, some b => some (a * 16 + b, rest)
      | _, _ => none
  | _ => none

/-- Fold `n` escaped UTF-8 continuation bytes into the accumulator. -/
def contBytes : Nat → Nat → List Char → Option (Nat × List Char)
  | 0, acc, cs => some (acc, cs)
  | n + 1, acc, cs =>
      match readEscByte cs with
      | none => none
      | some (b, rest) =>
          if 0x80 ≤ b ∧ b < 0xC0 then contBytes n (acc * 64 + (b - 0x80)) rest
          else none

/-- Number of bytes of the UTF-8 sequence a lead byte announces, `none`
for a continuation or invalid lead byte. -/
def utf8Len (b : Nat) : Option Nat :=
  if b < 0x80 then some 1
  else if b < 0xC0 then none
  else if b < 0xE0 then some 2
  else if b < 0xF0 then some 3
  else if b < 0xF8 then some 4
  else none

/-- Payload bits of a multi-byte UTF-8 lead byte. -/
def leadPayload (n b : Nat) : Nat :=
  match n with
  | 2 => b - 0xC0
  | 3 => b - 0xE0
  | _ => b - 0xF0

/-- Smallest code point a UTF-8 sequence of the given length may encode. -/
def minCodePoint (n : Nat) : Nat :=
  match n with
  | 2 => 0x80
  | 3 => 0x800
  | _ => 0x10000

/-- A decoded multi-byte code point is accepted when it is not overlong,
not a surrogate and at most `0x10FFFF`. -/
def validCodePoint (n cp : Nat) : Bool :=
  minCodePoint n ≤ cp ∧ cp ≤ 0x10FFFF ∧ ¬(0xD800 ≤ cp ∧ cp ≤ 0xDFFF)

/-- The decode loop; the first argument is fuel that each step decrements
while consuming at least one input character. -/
def decodeCoreAux : Nat → List Char → Option (List Char)
  | _, [] => some []
  | 0, _ :: _ => none
  | fuel + 1, c :: tl =>
      if c = '%' then
        match readEscByte (c :: tl) with
        | none => none
        | some (b, rest) =>
            if b < 0x80 then
              (decodeCoreAux fuel rest).map (fun l => Char.ofNat b :: l)
            else
              match utf8Len b with
              | none => none
              | some n =>
                  match contBytes (n - 1) (leadPayload n b) rest with
                  | none => none
                  | some (cp, rest2) =>
                      if validCodePoint n cp then
                        (decodeCoreAux fuel rest2).map (fun l => Char.ofNat cp :: l)
                      else none
      else (decodeCoreAux fuel tl).map (fun l => c :: l)

/-- `decodeURIComponent`, returning `none` where JS throws `URIError`. -/
def decodeURIComponentOpt (s : String) : Option String :=
  (decodeCoreAux s.data.length s.data).map (fun l => String.mk l)

/-- `onRequestPost` of the R2 upload function (embedded as
`onRequestPostUpload`): default the mime from `X-Mime-Type`,
`Content-Type`, `"audio/mpeg"` in that order; percent-decode `X-Filename`
falling back to the raw value; reject empty (400) then oversized (413)
bodies; otherwise put the object under `audio/<token>` and answer
200 `{ token }`. -/
def onRequestPostUpload (bkt : R2Bucket) (token createdAt : String) (body : List Nat)
    (xMime xFilename contentTypeHdr : Option String) : (Nat × Json) × R2Bucket :=
  let mimeHeader := jsOrOpt xMime (jsOrOpt contentTypeHdr "audio/mpeg")
  let encodedFilename := jsOrOpt xFilename "audio"
  let filename := (decodeURIComponentOpt encodedFilename).getD encodedFilename
  if body.length = 0 then
    ((400, [("error", .str "No audio data received")]), bkt)
  else if maxBytes < body.length then
    ((413, [("error", .str "Audio file too large (max 25 MB)")]), bkt)
  else
    ((200, [("token", .str token)]),
     fun k =>
       if k = "audio/" ++ token then some ⟨body, mimeHeader, filename, createdAt⟩
       else bkt k)

/-- `onRequestGet` of the R2 check function (embedded as
`onRequestGetCheck`): 404 for a falsy token or a missing head, otherwise
200 with the `customMetadata` filename (default `"Shared audio"`) and
`createdAt` (default `""`). -/
def onRequestGetCheck (bkt : R2Bucket) (token : String) : Nat × Json :=
  if token = "" then
    (404, [("exists", .bool false),
           ("message", .str "This audio is no longer available.")])
  else
    match bkt ("audio/" ++ token) with
    | none =>
        (404, [("exists", .bool false),
               ("message", .str "This audio is no longer available.")])
    | some o =>
        (200, [("exists", .bool true),
               ("filename", .str (jsOr o.filename "Shared audio")),
               ("createdAt", .str (jsOr o.createdAt ""))])

/-- `onRequest` of the R2 delete function (embedded as
`onRequestDelete`): 400 for a falsy token, 405 for other methods,
otherwise best-effort delete of `audio/<token>` and always
200 `{ ok: true }`. -/
def onRequestDelete (bkt : R2Bucket) (method token : String) : (Nat × Json) × R2Bucket :=
  if token = "" then
    ((400, [("error", .str "Missing token")]), bkt)
  else if method ≠ "DELETE" ∧ method ≠ "POST" then
    ((405, [("error", .str "Method not allowed")]), bkt)
  else
    ((200, [("ok", .bool true)]),
     fun k => if k = "audio/" ++ token then none else bkt k)

/-! ### Read-request sequences (for the frame property) -/

/-- A read-only request: an existence check or a stream request. -/
inductive ReadReq where
  | check (token : String)
  | stream (token : String) (rangeHeader : Option String)

/-- The store left behind by one read request. -/
def runRead (store : Store) : ReadReq → Store
  | .check t => (handleCheck store t).2
  | .stream t rh => (handleStream store t rh).2

/-- The store left behind by a sequence of read requests. -/
def runReads (store : Store) (reqs : List ReadReq) : Store :=
  reqs.foldl runRead store

/-! ### Concrete sample data used by witnesses and counterexamples -/

/-- A ten-byte live entry. -/
def sampleEntry : AudioEntry :=
  ⟨[10, 20, 30, 40, 50, 60, 70, 80, 90, 100], "audio/mpeg", "song.mp3", 0, false⟩

/-- A store holding exactly `sampleEntry` under token `"t"`. -/
def sampleStore : Store := fun t => if t = "t" then some sampleEntry else none

example : rangeOf 10 "bytes=0-2" = some (0, 2) := by decide
example : rangeOf 10 "bytes=3-" = some (3, 9) := by decide
example : rangeOf 10 "bytes=-500" = none := by decide
example : rangeOf 10 "bytes=0-1,5-9" = some (0, 1) := by decide
example : rangeOf 10 "xx bytes=4-6 yy" = some (4, 6) := by decide
example : digitsToNat "25".data = 25 := by decide

/-! ### Shared stream lemmas -/

/-- A parsed in-bounds range produces the 206 partial-content response. -/
lemma streamEntry_partial (entry : AudioEntry) (h : String) (start endv : Nat)
    (hr : rangeOf entry.buffer.length h = some (start, endv))
    (hse : start ≤ endv) (het : endv < entry.buffer.length) :
    streamEntry entry (some h) =
      ⟨206,
        [("Content-Range",
            "bytes " ++ toString start ++ "-" ++ toString endv ++ "/" ++
              toString entry.buffer.length),
         ("Accept-Ranges", "bytes"),
         ("Content-Length", toString (endv - start + 1)),
         ("Content-Type", entry.mimeType),
         ("Cache-Control", "no-store")],
        .bytes ((entry.buffer.drop start).take (endv + 1 - start))⟩ := by
  unfold streamEntry
  simp only [hr]
  rw [if_neg (by omega)]

/-- An absent entry streams as 404, whatever the `Range` header. -/
lemma handleStream_absent (store : Store) (token : String) (rangeHeader : Option String)
    (he : getAudioEntry store token = none) :
    (handleStream store token rangeHeader).1 =
      ⟨404, [("Content-Type", "text/plain; charset=utf-8")],
        .text "This audio is no longer available."⟩ := by
  simp only [handleStream, he]

/-- A request with no `Range` header answers the full payload. -/
lemma streamEntry_full (entry : AudioEntry) :
    streamEntry entry none =
      ⟨200,
        [("Content-Length", toString entry.buffer.length),
         ("Content-Type", entry.mimeType),
         ("Accept-Ranges", "bytes"),
         ("Cache-Control", "no-store")],
        .bytes entry.buffer⟩ := rfl

/-! ### Claims -/

/-- Claim C1: for every live entry of total size `T` and every
`Range: bytes=start-end` header (end defaulting to `T - 1` when the second
capture is empty) whose parsed bounds satisfy `start ≤ end < T`, the stream
operation answers 206 with `Content-Length = end - start + 1`,
`Content-Range = bytes start-end/T`, `Accept-Ranges: bytes`, and a body
that is exactly the inclusive slice `payload[start..end]`. -/
theorem stream_valid_range_responds_206 (store : Store) (token : String) (e : AudioEntry)
    (h : String) (start endv : Nat)
    (he : getAudioEntry store token = some e)
    (hr : rangeOf e.buffer.length h = some (start, endv))
    (hse : start ≤ endv) (het : endv < e.buffer.length) :
    (handleStream store token (some h)).1 =
      ⟨206,
        [("Content-Range",
            "bytes " ++ toString start ++ "-" ++ toString endv ++ "/" ++
              toString e.buffer.length),
         ("Accept-Ranges", "bytes"),
         ("Content-Length", toString (endv - start + 1)),
         ("Content-Type", e.mimeType),
         ("Cache-Control", "no-store")],
        .bytes ((e.buffer.drop start).take (endv + 1 - start))⟩ := by
  simp only [handleStream, he]
  exact streamEntry_partial e h start endv hr hse het

/-- Witness for C1: `bytes=2-5` against the ten-byte sample entry. -/
theorem stream_valid_range_responds_206_witness :
    (handleStream sampleStore "t" (some "bytes=2-5")).1 =
      ⟨206,
        [("Content-Range",
            "bytes " ++ toString 2 ++ "-" ++ toString 5 ++ "/" ++
              toString sampleEntry.buffer.length),
         ("Accept-Ranges", "bytes"),
         ("Content-Length", toString (5 - 2 + 1)),
         ("Content-Type", sampleEntry.mimeType),
         ("Cache-Control", "no-store")],
        .bytes ((sampleEntry.buffer.drop 2).take (5 + 1 - 2))⟩ :=
  stream_valid_range_responds_206 sampleStore "t" sampleEntry "bytes=2-5" 2 5
    (by decide) (by decide) (by decide) (by decide)

/-- Claim C2: a parsed range with `start ≥ T`, `end ≥ T` or `start > end`
is answered 416 with no payload bytes. -/
theorem stream_out_of_bounds_range_responds_416 (store : Store) (token : String)
    (e : AudioEntry) (h : String) (start endv : Nat)
    (he : getAudioEntry store token = some e)
    (hr : rangeOf e.buffer.length h = some (start, endv))
    (hbad : e.buffer.length ≤ start ∨ e.buffer.length ≤ endv ∨ endv < start) :
    (handleStream store token (some h)).1 =
      ⟨416, [("Content-Type", "text/plain")], .text "Invalid range"⟩ := by
  simp only [handleStream, he]
  unfold streamEntry
  simp only [hr]
  rw [if_pos hbad]

/-- Witness for C2: `bytes=10-15` (start = T, the claim's `bytes=T-(T+5)`
instance) against the ten-byte sample entry. -/
theorem stream_out_of_bounds_range_responds_416_witness :
    (handleStream sampleStore "t" (some "bytes=10-15")).1 =
      ⟨416, [("Content-Type", "text/plain")], .text "Invalid range"⟩ :=
  stream_out_of_bounds_range_responds_416 sampleStore "t" sampleEntry "bytes=10-15" 10 15
    (by decide) (by decide) (by decide)

/-- Counterexample to C3: the regex `/bytes=(\d+)-(\d*)/` is unanchored, so
the multi-range list `bytes=0-1,5-9` matches as the single range `0-1` and
is served 206 with payload bytes, not 416. -/
theorem stream_multi_range_list_not_rejected :
    (handleStream sampleStore "t" (some "bytes=0-1,5-9")).1.status = 206 ∧
    (handleStream sampleStore "t" (some "bytes=0-1,5-9")).1.status ≠ 416 ∧
    bodyBytes (handleStream sampleStore "t" (some "bytes=0-1,5-9")).1 = [10, 20] := by
  decide

/-- Claim C3 (amended): a present `Range` header containing no substring of
the form `bytes=<digits>-<optional digits>` — e.g. the suffix form
`bytes=-500` — is answered 416 with no payload; headers that do contain such
a substring (multi-range lists, surrounding text) are instead treated as
that first embedded single range. -/
theorem stream_unmatched_range_header_responds_416 (store : Store) (token : String)
    (e : AudioEntry) (h : String)
    (he : getAudioEntry store token = some e)
    (hnm : execBytesRegex h.data = none) :
    (handleStream store token (some h)).1 =
      ⟨416, [("Content-Type", "text/plain")], .text "Invalid range"⟩ := by
  simp only [handleStream, he]
  unfold streamEntry rangeOf
  simp only [hnm]

/-- Witness for amended C3: the suffix range `bytes=-500`. -/
theorem stream_unmatched_range_header_responds_416_witness :
    (handleStream sampleStore "t" (some "bytes=-500")).1 =
      ⟨416, [("Content-Type", "text/plain")], .text "Invalid range"⟩ :=
  stream_unmatched_range_header_responds_416 sampleStore "t" sampleEntry "bytes=-500"
    (by decide) (by decide)

/-- Claim C4: a token with no live entry streams as 404
`"This audio is no longer available."` for every `Range` header (present,
absent, valid or malformed): absence is decided before range handling. -/
theorem stream_absent_entry_responds_404 (store : Store) (token : String)
    (rangeHeader : Option String)
    (he : getAudioEntry store token = none) :
    (handleStream store token rangeHeader).1 =
      ⟨404, [("Content-Type", "text/plain; charset=utf-8")],
        .text "This audio is no longer available."⟩ :=
  handleStream_absent store token rangeHeader he

/-- Witness for C4: a never-issued token with a malformed `Range` header. -/
theorem stream_absent_entry_responds_404_witness :
    (handleStream emptyStore "x" (some "garbage header")).1 =
      ⟨404, [("Content-Type", "text/plain; charset=utf-8")],
        .text "This audio is no longer available."⟩ :=
  stream_absent_entry_responds_404 emptyStore "x" (some "garbage header") rfl

/-- The entry a successful upload stores: the received bytes, the defaulted
mime chain, the (raw) filename header, the current time, not deleted. -/
def uploadedEntry (now : Int) (body : List Nat) (filenameHdr mimeHdr contentTypeHdr : Option String) :
    AudioEntry :=
  ⟨body,
   jsOr (jsOrOpt mimeHdr "audio/mpeg") (jsOr (jsOrOpt contentTypeHdr "") "application/octet-stream"),
   jsOrOpt filenameHdr "audio", now, false⟩

/-- Claim C5: with a fresh token, an empty body is rejected 400 and an
over-25 MB body is rejected 413, both leaving the store untouched (never
truncated); any body with `0 < n ≤ 25 MB` is accepted 200 `{ token }`,
storing exactly one new live entry whose payload is the uploaded bytes —
streaming it back yields those bytes. -/
theorem upload_size_policy (store : Store) (now : Int) (token : String) (body : List Nat)
    (filenameHdr mimeHdr contentTypeHdr : Option String)
    (hfresh : store token = none) :
    handleUpload store now token body filenameHdr mimeHdr contentTypeHdr =
      (if MAX_AUDIO_BYTES < body.length then
         ((413, [("error", .str "Audio file too large")]), store)
       else if body.length = 0 then
         ((400, [("error", .str "No audio data received")]), store)
       else
         ((200, [("token", .str token)]),
          fun t =>
            if t = token then some (uploadedEntry now body filenameHdr mimeHdr contentTypeHdr)
            else store t))
    ∧ getAudioEntry
        (fun t =>
          if t = token then some (uploadedEntry now body filenameHdr mimeHdr contentTypeHdr)
          else store t) token
        = some (uploadedEntry now body filenameHdr mimeHdr contentTypeHdr)
    ∧ bodyBytes
        (handleStream
          (fun t =>
            if t = token then some (uploadedEntry now body filenameHdr mimeHdr contentTypeHdr)
            else store t) token none).1
        = body
    ∧ getAudioEntry store token = none := by
  have hget : getAudioEntry
      (fun t =>
        if t = token then some (uploadedEntry now body filenameHdr mimeHdr contentTypeHdr)
        else store t) token
      = some (uploadedEntry now body filenameHdr mimeHdr contentTypeHdr) := by
    simp [getAudioEntry, uploadedEntry]
  refine ⟨rfl, hget, ?_, ?_⟩
  · simp only [handleStream, hget, streamEntry_full, bodyBytes]
    rfl
  · unfold getAudioEntry
    rw [hfresh]

/-- Witness for C5: a three-byte upload into the empty store. -/
theorem upload_size_policy_witness :
    handleUpload emptyStore 0 "tok" [7, 8, 9] none none none =
      (if MAX_AUDIO_BYTES < [7, 8, 9].length then
         ((413, [("error", .str "Audio file too large")]), emptyStore)
       else if [7, 8, 9].length = 0 then
         ((400, [("error", .str "No audio data received")]), emptyStore)
       else
         ((200, [("token", .str "tok")]),
          fun t =>
            if t = "tok" then some (uploadedEntry 0 [7, 8, 9] none none none)
            else emptyStore t))
    ∧ getAudioEntry
        (fun t =>
          if t = "tok" then some (uploadedEntry 0 [7, 8, 9] none none none)
          else emptyStore t) "tok"
        = some (uploadedEntry 0 [7, 8, 9] none none none)
    ∧ bodyBytes
        (handleStream
          (fun t =>
            if t = "tok" then some (uploadedEntry 0 [7, 8, 9] none none none)
            else emptyStore t) "tok" none).1
        = [7, 8, 9]
    ∧ getAudioEntry emptyStore "tok" = none :=
  upload_size_policy emptyStore 0 "tok" [7, 8, 9] none none none rfl

/-! ### Delete lemmas -/

/-- Deleting an already-absent token answers success without touching the
store. -/
lemma handleDelete_absent (store : Store) (method token : String)
    (hg : ¬(method ≠ "DELETE" ∧ method ≠ "POST"))
    (hd : getAudioEntry store token = none) :
    handleDelete store method token =
      ((200, [("ok", .bool true), ("message", .str "Already deleted or expired")]), store) := by
  unfold handleDelete
  rw [if_neg hg, hd]

/-- Deleting a live token answers success and removes the key. -/
lemma handleDelete_present (store : Store) (method token : String) (e : AudioEntry)
    (hg : ¬(method ≠ "DELETE" ∧ method ≠ "POST"))
    (hd : getAudioEntry store token = some e) :
    handleDelete store method token =
      ((200, [("ok", .bool true)]), fun t => if t = token then none else store t) := by
  unfold handleDelete
  rw [if_neg hg, hd]

/-- The key just removed resolves to no live entry. -/
lemma getAudioEntry_removed (store : Store) (token : String) :
    getAudioEntry (fun t => if t = token then none else store t) token = none := by
  simp [getAudioEntry]

/-- Checking an absent token answers 404 `{ exists: false, message }`. -/
lemma handleCheck_absent (store : Store) (token : String)
    (hd : getAudioEntry store token = none) :
    handleCheck store token =
      ((404, [("exists", .bool false),
              ("message", .str "This audio is no longer available.")]), store) := by
  unfold handleCheck
  rw [hd]

/-- Claim C6: via DELETE or POST, delete answers 200 with `ok: true` whether
or not a live entry exists (the R2 handler answers the exact body
`{ ok: true }` in both cases); afterwards the entry is absent, check answers
404 `exists: false`, stream answers 404, and a second delete still answers
200 with `ok: true`. -/
theorem delete_idempotent_success (store : Store) (bkt : R2Bucket) (method token : String)
    (rangeHeader : Option String)
    (hm : method = "DELETE" ∨ method = "POST") (htok : token ≠ "") :
    (onRequestDelete bkt method token).1 = (200, [("ok", .bool true)])
    ∧ (onRequestDelete (onRequestDelete bkt method token).2 method token).1 =
        (200, [("ok", .bool true)])
    ∧ (onRequestDelete bkt method token).2 ("audio/" ++ token) = none
    ∧ (handleDelete store method token).1.1 = 200
    ∧ ((handleDelete store method token).1.2).lookup "ok" = some (.bool true)
    ∧ getAudioEntry (handleDelete store method token).2 token = none
    ∧ (handleCheck (handleDelete store method token).2 token).1 =
        (404, [("exists", .bool false),
               ("message", .str "This audio is no longer available.")])
    ∧ (handleStream (handleDelete store method token).2 token rangeHeader).1 =
        ⟨404, [("Content-Type", "text/plain; charset=utf-8")],
          .text "This audio is no longer available."⟩
    ∧ (handleDelete (handleDelete store method token).2 method token).1.1 = 200
    ∧ ((handleDelete (handleDelete store method token).2 method token).1.2).lookup "ok" =
        some (.bool true) := by
  have hg : ¬(method ≠ "DELETE" ∧ method ≠ "POST") := by
    rcases hm with rfl | rfl <;> simp
  have hR2 : ∀ b : R2Bucket, onRequestDelete b method token =
      ((200, [("ok", .bool true)]), fun k => if k = "audio/" ++ token then none else b k) := by
    intro b
    unfold onRequestDelete
    rw [if_neg htok, if_neg hg]
  have habs : getAudioEntry (handleDelete store method token).2 token = none := by
    rcases hd : getAudioEntry store token with _ | e
    · rw [handleDelete_absent store method token hg hd]
      exact hd
    · rw [handleDelete_present store method token e hg hd]
      exact getAudioEntry_removed store token
  have hfirst : (handleDelete store method token).1.1 = 200 ∧
      ((handleDelete store method token).1.2).lookup "ok" = some (.bool true) := by
    rcases hd : getAudioEntry store token with _ | e
    · rw [handleDelete_absent store method token hg hd]
      exact ⟨rfl, rfl⟩
    · rw [handleDelete_present store method token e hg hd]
      exact ⟨rfl, rfl⟩
  have hsecond : handleDelete (handleDelete store method token).2 method token =
      ((200, [("ok", .bool true), ("message", .str "Already deleted or expired")]),
        (handleDelete store method token).2) :=
    handleDelete_absent _ method token hg habs
  refine ⟨?_, ?_, ?_, hfirst.1, hfirst.2, habs, ?_, ?_, ?_, ?_⟩
  · rw [hR2 bkt]
  · rw [hR2 bkt, hR2 _]
  · rw [hR2 bkt]
    simp
  · rw [handleCheck_absent _ token habs]
  · exact handleStream_absent _ token rangeHeader habs
  · rw [hsecond]
  · rw [hsecond]
    rfl

/-- Witness for C6: deleting the sample entry with DELETE, then again. -/
theorem delete_idempotent_success_witness :
    (onRequestDelete emptyBucket "DELETE" "t").1 = (200, [("ok", .bool true)])
    ∧ (onRequestDelete (onRequestDelete emptyBucket "DELETE" "t").2 "DELETE" "t").1 =
        (200, [("ok", .bool true)])
    ∧ (onRequestDelete emptyBucket "DELETE" "t").2 ("audio/" ++ "t") = none
    ∧ (handleDelete sampleStore "DELETE" "t").1.1 = 200
    ∧ ((handleDelete sampleStore "DELETE" "t").1.2).lookup "ok" = some (.bool true)
    ∧ getAudioEntry (handleDelete sampleStore "DELETE" "t").2 "t" = none
    ∧ (handleCheck (handleDelete sampleStore "DELETE" "t").2 "t").1 =
        (404, [("exists", .bool false),
               ("message", .str "This audio is no longer available.")])
    ∧ (handleStream (handleDelete sampleStore "DELETE" "t").2 "t" (some "bytes=0-1")).1 =
        ⟨404, [("Content-Type", "text/plain; charset=utf-8")],
          .text "This audio is no longer available."⟩
    ∧ (handleDelete (handleDelete sampleStore "DELETE" "t").2 "DELETE" "t").1.1 = 200
    ∧ ((handleDelete (handleDelete sampleStore "DELETE" "t").2 "DELETE" "t").1.2).lookup "ok" =
        some (.bool true) :=
  delete_idempotent_success sampleStore emptyBucket "DELETE" "t" (some "bytes=0-1")
    (Or.inl rfl) (by decide)

/-- Claim C7: a sweep removes a live entry exactly when its age exceeds
`AUDIO_TTL_MS`, leaving younger entries untouched; a swept token checks and
streams exactly like a never-issued one (404, `exists: false`). -/
theorem sweep_removes_exactly_expired (store : Store) (now : Int) (token : String)
    (e : AudioEntry) (rangeHeader : Option String)
    (hsome : store token = some e) (hlive : e.deleted = false) :
    cleanExpiredAudio now store token =
        (if AUDIO_TTL_MS < now - e.createdAt then none else some e)
    ∧ (handleCheck (cleanExpiredAudio now store) token).1 =
        (if AUDIO_TTL_MS < now - e.createdAt then (handleCheck emptyStore token).1
         else (200, [("exists", .bool true),
                     ("filename", .str e.filename),
                     ("createdAt", .int e.createdAt)]))
    ∧ (handleCheck emptyStore token).1 =
        (404, [("exists", .bool false),
               ("message", .str "This audio is no longer available.")])
    ∧ (handleStream (cleanExpiredAudio now store) token rangeHeader).1 =
        (if AUDIO_TTL_MS < now - e.createdAt then (handleStream emptyStore token rangeHeader).1
         else (handleStream store token rangeHeader).1) := by
  have hclean : cleanExpiredAudio now store token =
      (if AUDIO_TTL_MS < now - e.createdAt then none else some e) := by
    unfold cleanExpiredAudio
    rw [hsome]
    simp [hlive]
  have hempty : getAudioEntry emptyStore token = none := rfl
  by_cases hexp : AUDIO_TTL_MS < now - e.createdAt
  · have hnone : getAudioEntry (cleanExpiredAudio now store) token = none := by
      unfold getAudioEntry
      rw [hclean, if_pos hexp]
    refine ⟨by rw [hclean], ?_, rfl, ?_⟩
    · rw [handleCheck_absent _ token hnone, if_pos hexp,
        handleCheck_absent _ token hempty]
    · rw [handleStream_absent _ token rangeHeader hnone, if_pos hexp,
        handleStream_absent _ token rangeHeader hempty]
  · have hsame : getAudioEntry (cleanExpiredAudio now store) token = some e := by
      unfold getAudioEntry
      rw [hclean, if_neg hexp]
      simp [hlive]
    have horig : getAudioEntry store token = some e := by
      unfold getAudioEntry
      rw [hsome]
      simp [hlive]
    refine ⟨by rw [hclean], ?_, rfl, ?_⟩
    · rw [if_neg hexp]
      unfold handleCheck
      rw [hsame]
    · rw [if_neg hexp]
      simp only [handleStream, hsame, horig]

/-- Witness for C7: the sample entry (created at 0) swept at one
millisecond past the TTL. -/
theorem sweep_removes_exactly_expired_witness :
    cleanExpiredAudio 3600001 sampleStore "t" =
        (if AUDIO_TTL_MS < 3600001 - sampleEntry.createdAt then none else some sampleEntry)
    ∧ (handleCheck (cleanExpiredAudio 3600001 sampleStore) "t").1 =
        (if AUDIO_TTL_MS < 3600001 - sampleEntry.createdAt then (handleCheck emptyStore "t").1
         else (200, [("exists", .bool true),
                     ("filename", .str sampleEntry.filename),
                     ("createdAt", .int sampleEntry.createdAt)]))
    ∧ (handleCheck emptyStore "t").1 =
        (404, [("exists", .bool false),
               ("message", .str "This audio is no longer available.")])
    ∧ (handleStream (cleanExpiredAudio 3600001 sampleStore) "t" none).1 =
        (if AUDIO_TTL_MS < 3600001 - sampleEntry.createdAt then (handleStream emptyStore "t" none).1
         else (handleStream sampleStore "t" none).1) :=
  sweep_removes_exactly_expired sampleStore 3600001 "t" sampleEntry none (by decide) rfl

/-- Counterexample to C8: the in-memory upload handler stores the
`x-filename` header verbatim — `a%20b` is kept and reported as `a%20b`,
not as its percent-decoded form `a b`. -/
theorem node_upload_stores_raw_filename :
    decodeURIComponentOpt "a%20b" = some "a b"
    ∧ ((handleUpload emptyStore 0 "tok" [1] (some "a%20b") none none).2 "tok").map
        AudioEntry.filename = some "a%20b"
    ∧ ((handleCheck (handleUpload emptyStore 0 "tok" [1] (some "a%20b") none none).2
          "tok").1.2).lookup "filename" = some (.str "a%20b")
    ∧ "a%20b" ≠ "a b" := by
  decide

/-- Claim C8 (amended): the R2 upload stores (and its check later reports)
the percent-decoded `X-Filename`, falling back to the raw value when
decoding fails and to the label `audio` when the header is absent, without
ever failing the upload; the in-memory upload instead stores the header
value raw (same `audio` fallback). -/
theorem upload_filename_decoding_policy (bkt : R2Bucket) (store : Store) (now : Int)
    (createdAt token : String) (body : List Nat) (xFilename xMime contentTypeHdr : Option String)
    (h0 : body.length ≠ 0) (hmax : body.length ≤ maxBytes) (htok : token ≠ "") :
    ((onRequestPostUpload bkt token createdAt body xMime xFilename contentTypeHdr).2
        ("audio/" ++ token)).map R2Object.filename
      = some ((decodeURIComponentOpt (jsOrOpt xFilename "audio")).getD (jsOrOpt xFilename "audio"))
    ∧ (onRequestPostUpload bkt token createdAt body xMime xFilename contentTypeHdr).1 =
        (200, [("token", .str token)])
    ∧ onRequestGetCheck
        (onRequestPostUpload bkt token createdAt body xMime xFilename contentTypeHdr).2 token =
        (200, [("exists", .bool true),
               ("filename", .str (jsOr
                  ((decodeURIComponentOpt (jsOrOpt xFilename "audio")).getD (jsOrOpt xFilename "audio"))
                  "Shared audio")),
               ("createdAt", .str (jsOr createdAt ""))])
    ∧ ((handleUpload store now token body xFilename xMime contentTypeHdr).2 token).map
        AudioEntry.filename = some (jsOrOpt xFilename "audio") := by
  have hnm : ¬(maxBytes < body.length) := by omega
  have hnm' : ¬(MAX_AUDIO_BYTES < body.length) := hnm
  have hup : onRequestPostUpload bkt token createdAt body xMime xFilename contentTypeHdr =
      ((200, [("token", .str token)]),
       fun k =>
         if k = "audio/" ++ token then
           some ⟨body, jsOrOpt xMime (jsOrOpt contentTypeHdr "audio/mpeg"),
                 (decodeURIComponentOpt (jsOrOpt xFilename "audio")).getD (jsOrOpt xFilename "audio"),
                 createdAt⟩
         else bkt k) := by
    unfold onRequestPostUpload
    rw [if_neg h0, if_neg hnm]
  have hnode : handleUpload store now token body xFilename xMime contentTypeHdr =
      ((200, [("token", .str token)]),
       fun t =>
         if t = token then some (uploadedEntry now body xFilename xMime contentTypeHdr)
         else store t) := by
    unfold handleUpload uploadedEntry
    rw [if_neg hnm', if_neg h0]
  refine ⟨?_, ?_, ?_, ?_⟩
  · rw [hup]
    simp
  · rw [hup]
  · rw [hup]
    unfold onRequestGetCheck
    rw [if_neg htok]
    simp
  · rw [hnode]
    simp [uploadedEntry]

/-- Witness for amended C8: uploading `My%20Song` through both variants. -/
theorem upload_filename_decoding_policy_witness :
    ((onRequestPostUpload emptyBucket "tok" "123" [1] none (some "My%20Song") none).2
        ("audio/" ++ "tok")).map R2Object.filename
      = some ((decodeURIComponentOpt (jsOrOpt (some "My%20Song") "audio")).getD
          (jsOrOpt (some "My%20Song") "audio"))
    ∧ (onRequestPostUpload emptyBucket "tok" "123" [1] none (some "My%20Song") none).1 =
        (200, [("token", .str "tok")])
    ∧ onRequestGetCheck
        (onRequestPostUpload emptyBucket "tok" "123" [1] none (some "My%20Song") none).2 "tok" =
        (200, [("exists", .bool true),
               ("filename", .str (jsOr
                  ((decodeURIComponentOpt (jsOrOpt (some "My%20Song") "audio")).getD
                    (jsOrOpt (some "My%20Song") "audio"))
                  "Shared audio")),
               ("createdAt", .str (jsOr "123" ""))])
    ∧ ((handleUpload emptyStore 0 "tok" [1] (some "My%20Song") none none).2 "tok").map
        AudioEntry.filename = some (jsOrOpt (some "My%20Song") "audio") :=
  upload_filename_decoding_policy emptyBucket emptyStore 0 "123" "tok" [1]
    (some "My%20Song") none none (by decide) (by decide) (by decide)

/-- Claim C9: for a live entry of size `T` and a split point `k` with
`k + 1 < T`, the full-read body equals the concatenation of the bodies of
the two adjacent range reads `bytes=0-k` and `bytes=(k+1)-(T-1)`. -/
theorem adjacent_range_reads_reassemble_payload (store : Store) (token : String)
    (e : AudioEntry) (h1 h2 : String) (k : Nat)
    (he : getAudioEntry store token = some e)
    (hk : k + 1 < e.buffer.length)
    (hr1 : rangeOf e.buffer.length h1 = some (0, k))
    (hr2 : rangeOf e.buffer.length h2 = some (k + 1, e.buffer.length - 1)) :
    bodyBytes (handleStream store token none).1 =
      bodyBytes (handleStream store token (some h1)).1 ++
        bodyBytes (handleStream store token (some h2)).1 := by
  simp only [handleStream, he]
  rw [streamEntry_full, streamEntry_partial e h1 0 k hr1 (Nat.zero_le k) (by omega),
    streamEntry_partial e h2 (k + 1) (e.buffer.length - 1) hr2 (by omega) (by omega)]
  simp only [bodyBytes]
  rw [List.drop_zero]
  have h2' : e.buffer.length - 1 + 1 - (k + 1) = e.buffer.length - (k + 1) := by omega
  rw [h2']
  have htail : (e.buffer.drop (k + 1)).take (e.buffer.length - (k + 1)) =
      e.buffer.drop (k + 1) := by
    apply List.take_of_length_le
    simp [List.length_drop]
  rw [htail]
  exact (List.take_append_drop (k + 1) e.buffer).symm

/-- Witness for C9: splitting the ten-byte sample entry at `k = 3`. -/
theorem adjacent_range_reads_reassemble_payload_witness :
    bodyBytes (handleStream sampleStore "t" none).1 =
      bodyBytes (handleStream sampleStore "t" (some "bytes=0-3")).1 ++
        bodyBytes (handleStream sampleStore "t" (some "bytes=4-9")).1 :=
  adjacent_range_reads_reassemble_payload sampleStore "t" sampleEntry
    "bytes=0-3" "bytes=4-9" 3 (by decide) (by decide) (by decide) (by decide)

/-- One check leaves the store exactly as it was. -/
lemma handleCheck_store (store : Store) (token : String) :
    (handleCheck store token).2 = store := by
  unfold handleCheck
  rcases h : getAudioEntry store token with _ | e <;> rfl

/-- One stream request leaves the store exactly as it was. -/
lemma handleStream_store (store : Store) (token : String) (rangeHeader : Option String) :
    (handleStream store token rangeHeader).2 = store := by
  unfold handleStream
  rcases h : getAudioEntry store token with _ | e <;> rfl

/-- One read request leaves the store exactly as it was. -/
lemma runRead_store (store : Store) (r : ReadReq) : runRead store r = store := by
  cases r with
  | check t => exact handleCheck_store store t
  | stream t rh => exact handleStream_store store t rh

/-- Claim C10: check and stream never modify the store — after any sequence
of check/stream requests every entry (payload, filename, content type,
creation time, liveness) is unchanged, so a subsequent TTL sweep removes
exactly what it would have removed before the reads. -/
theorem check_stream_preserve_store (store : Store) (reqs : List ReadReq) (now : Int) :
    runReads store reqs = store ∧
    cleanExpiredAudio now (runReads store reqs) = cleanExpiredAudio now store := by
  have h : ∀ s : Store, runReads s reqs = s := by
    induction reqs with
    | nil => intro s; rfl
    | cons r rs ih =>
        intro s
        have hstep : runReads s (r :: rs) = runReads (runRead s r) rs := rfl
        rw [hstep, runRead_store]
        exact ih s
  exact ⟨h store, by rw [h store]⟩
example : decodeURIComponentOpt "a%20b" = some "a b" := by decide
example : decodeURIComponentOpt "My%20Song.mp3" = some "My Song.mp3" := by decide
example : decodeURIComponentOpt "%E3%81%82" = some "あ" := by decide
example : decodeURIComponentOpt "%E0" = none := by decide
example : decodeURIComponentOpt "%ZZ" = none := by decide
example : decodeURIComponentOpt "plain" = some "plain" := by decide
example : decodeURIComponentOpt "%C0%80" = none := by decide
